import Mathlib

/-!
# Verification of the `arpa-gui` coordination core

Shallow embedding, in Lean 4, of the UI/worker coordination core of the
`arpa-gui` repository:

* the generic resource cache `Downloader<T>` (`src/app/helpers/downloader.rs`),
* the pipeline state machine `PipelineApp` / `PipeStage` / `RunInfo`
  (`src/app/pipeline.rs`),
* the request/message protocol and the worker loop
  (`src/app/syncher.rs`, `src/app/syncher/request.rs`),
* the message-handling part of `Application` (`src/app.rs`).

The backend (`arpa::Archivist`, `arpa::pipeline`) is an external collaborator
of this repository; its operations are modelled as oracle fields of a
`Backend` structure, each an explicit state-passing function returning
`Except Err _` (mirroring Rust's `Result` together with `&mut` state).
Floating-point TOA fields are idealised as rationals; no theorem below
depends on their arithmetic.
-/

namespace ArpaGui

/-- `ARPAError`, the backend's error type, is external to this repository.
This crate constructs only `CantFind` (in `parse_pulsar`); every other
backend failure is forwarded opaquely, modelled by `backend`. -/
inductive Err where
  | CantFind (what : String)
  | backend (info : String)
deriving DecidableEq, Repr

/-- `arpa::Table`; the only variant this repository names is `PulsarMetas`
(in `add_par` / `overwrite_par` / `parse_pulsar`). -/
inductive Table where
  | PulsarMetas
deriving DecidableEq, Repr

/-- `DataType` from `src/app/syncher/request.rs`. -/
inductive DataType where
  | Pulsar
  | Ephemeride
  | Toa
deriving DecidableEq, Repr

/-- The `Display` impl for `DataType` in `src/app/syncher/request.rs`. -/
def DataType.display : DataType → String
  | .Pulsar => "pulsar"
  | .Ephemeride => "ephemeride"
  | .Toa => "TOA"

/-- `FetchType` from `src/app/helpers/downloader.rs`. -/
inductive FetchType where
  | All
  | Id (id : Int)
deriving DecidableEq, Repr

/-- `DownloaderAction` from `src/app/helpers/downloader.rs`. -/
inductive DownloaderAction where
  | None
  | Delete (id : Option Int)
  | Download (ft : FetchType)
deriving DecidableEq, Repr

/-- `arpa::data_types::PulsarMeta`, external; modelled with the fields this
repository reads (`id`, `alias`). -/
structure PulsarMeta where
  id : Int
  «alias» : String
deriving DecidableEq, Repr

/-- `arpa::data_types::ParMeta`, external; modelled with the fields this
repository reads (`id`, `file_path`, `pulsar_id`). -/
structure ParMeta where
  id : Int
  file_path : String
  pulsar_id : Int
deriving DecidableEq, Repr

/-- `arpa::data_types::RawMeta`, external; modelled with the fields this
repository reads (`id`, `file_path`). -/
structure RawMeta where
  id : Int
  file_path : String
deriving DecidableEq, Repr

/-- `arpa::data_types::TemplateMeta`, external; modelled with the fields this
repository reads (`id`, `file_path`). -/
structure TemplateMeta where
  id : Int
  file_path : String
deriving DecidableEq, Repr

/-- `arpa::data_types::TOAInfo`, external; fields read by
`make_toa_data` in `src/app/syncher/request.rs`. `f64` fields are idealised
as rationals. -/
structure TOAInfo where
  id : Int
  process_id : Int
  pulsar_id : Int
  observer_id : Int
  template_id : Int
  frequency : ℚ
  toa_int : Int
  toa_frac : ℚ
  toa_err : ℚ
deriving DecidableEq, Repr

/-- `TOAData` from `src/app/toas.rs` (the row type the TOA cache holds). -/
structure TOAData where
  id : Int
  process : Int
  pulsar : String
  observer : Int
  template : Int
  frequency : ℚ
  time : ℚ
  error : ℚ
deriving DecidableEq, Repr

/-- `ParData` from `src/app/ephemerides.rs` (the row type the ephemeride
cache holds). -/
structure ParData where
  id : Int
  pulsar_id : Int
  pulsar_name : String
  path : String
deriving DecidableEq, Repr

/-- `arpa::pipeline::Status`, external; constructors as matched in
`src/app/pipeline.rs`. Payloads not read by this repository are dropped
(`Starting {..}`, `Copying(_, _)`); `usize` payloads are `Nat`, the
`Duration` payload of `Finished` is idealised as `Nat`. -/
inductive Status where
  | Idle
  | Error (msg : String)
  | Starting
  | Copying
  | InstallingEphemeride
  | Manipulating
  | VerifyingTemplate
  | GeneratingTOAs
  | GotTOAs (n : Nat)
  | LoggingProcess
  | ParsingTOAs
  | ArchivedTOAs (n : Nat)
  | Diagnosing (n : Nat)
  | FinishedDiagnostic (diagnostic : String) (passed : Bool)
  | ArchivedTOAPlots (n : Option Nat)
  | Finished (duration : Nat)
deriving DecidableEq, Repr

/-- `Status: Default` in the backend crate; `Idle` is the idle default. -/
instance : Inhabited Status := ⟨Status.Idle⟩

/-! ## Resource cache: `Downloader<T>` (`src/app/helpers/downloader.rs`) -/

/-- The identity capability of the `Item` trait
(`src/app/helpers/downloader.rs`). `NAME`, `COLUMNS`, `format` and `cmp_by`
are rendering/sorting hooks not used by any claim and are omitted. -/
class Item (T : Type) where
  id : T → Int

instance : Item PulsarMeta := ⟨PulsarMeta.id⟩

instance : Item ParData := ⟨ParData.id⟩

instance : Item TOAData := ⟨TOAData.id⟩

/-- `Downloader<T>` from `src/app/helpers/downloader.rs`. -/
structure Downloader (T : Type) where
  data : List T
  selected : Option Nat
  sort_by : Nat
  fetch_type : FetchType
  fetching : Bool
  action : DownloaderAction

/-- `Downloader::new`. -/
def Downloader.new {T : Type} : Downloader T :=
  { data := []
    selected := none
    sort_by := 0
    fetch_type := .All
    fetching := false
    action := .None }

/-- `Downloader::deselect`. -/
def Downloader.deselect {T : Type} (d : Downloader T) : Downloader T :=
  { d with selected := none }

/-- `Downloader::select`. Returns the new cache together with the returned
`Option<usize>`. Mirrors the source exactly: the out-of-range guard calls
`deselect`, then the `match` on `self.selected` runs unconditionally. -/
def Downloader.select {T : Type} (d : Downloader T) (index : Nat) :
    Downloader T × Option Nat :=
  let d :=
    if d.data.length ≤ index then d.deselect else d
  let d :=
    match d.selected with
    | some i => if i = index then { d with selected := none }
                else { d with selected := some index }
    | none => { d with selected := some index }
  (d, d.selected)

/-- `Downloader::add`: position of an existing item with the same id;
replace in place or push; `select` the position (or the new last index);
clear the fetch flag. -/
def Downloader.add {T : Type} [Item T] (d : Downloader T) (item : T) :
    Downloader T :=
  let pos := d.data.findIdx? (fun i => Item.id i = Item.id item)
  let data :=
    match pos with
    | some i => d.data.set i item
    | none => d.data ++ [item]
  let d := { d with data := data }
  let d := (d.select (pos.getD (d.data.length - 1))).1
  { d with fetching := false }

/-- `Downloader::set`. -/
def Downloader.set {T : Type} (d : Downloader T) (items : List T) :
    Downloader T :=
  { d with data := items, fetching := false }

/-- `Downloader::action` (one-shot latch read). -/
def Downloader.takeAction {T : Type} (d : Downloader T) :
    Downloader T × DownloaderAction :=
  ({ d with action := .None }, d.action)

/-- `Downloader::selected` accessor. -/
def Downloader.selectedIx {T : Type} (d : Downloader T) : Option Nat :=
  d.selected

/-- `Downloader::stop_fetching`. -/
def Downloader.stop_fetching {T : Type} (d : Downloader T) : Downloader T :=
  { d with fetching := false }

/-- The selection-validity invariant claimed by the specification for the
resource cache: a present selection index is a valid index into `data`. -/
def Downloader.selValid {T : Type} (d : Downloader T) : Prop :=
  ∀ i, d.selected = some i → i < d.data.length

/-! ## Pipeline state machine (`src/app/pipeline.rs`) -/

/-- `RunInfo` from `src/app/pipeline.rs`. -/
structure RunInfo where
  status : Status
  errored : Bool
  generated_toas : Option Nat
  archived_toas : Option Nat
  diagnosed : Nat × List (String × Bool)
  archived_plots : Option Nat
  done : Option Nat
deriving DecidableEq, Repr

/-- `#[derive(Default)]` for `RunInfo`. -/
def RunInfo.default : RunInfo :=
  { status := .Idle
    errored := false
    generated_toas := none
    archived_toas := none
    diagnosed := (0, [])
    archived_plots := none
    done := none }

/-- `PipeStage` from `src/app/pipeline.rs`. -/
inductive PipeStage where
  | Invalid
  | Relaxed (raw : String) (ephemeride : Int) (template : Int)
  | SettingUp (raw : String) (ephemeride : Int) (template : Int)
  | SetUp (raw : RawMeta) (ephemeride : Option ParMeta)
      (template : TemplateMeta)
  | Running (info : RunInfo)
deriving DecidableEq, Repr

/-- `impl Default for PipeStage`. -/
def PipeStage.default : PipeStage :=
  .Relaxed "" 0 0

/-- `PipelineApp::interrupt`: `Running` and `Invalid` collapse to the
default `Relaxed`; every other state is put back unchanged. -/
def PipeStage.interrupt : PipeStage → PipeStage
  | .Running _ => PipeStage.default
  | .Invalid => PipeStage.default
  | s => s

/-- The per-event update of `RunInfo` performed inside
`PipelineApp::set_status`: the `match &status` on the event, followed by the
`if let Status::Error` guard on storing the event as the current status. -/
def RunInfo.apply (info : RunInfo) (status : Status) : RunInfo :=
  let info :=
    match status with
    | .Error _ => { info with errored := true }
    | .GotTOAs n => { info with generated_toas := some n }
    | .ArchivedTOAs n => { info with archived_toas := some n }
    | .Diagnosing n => { info with diagnosed := (n, []) }
    | .FinishedDiagnostic d p =>
        { info with diagnosed :=
            (info.diagnosed.1, info.diagnosed.2 ++ [(d, p)]) }
    | .ArchivedTOAPlots n => { info with archived_plots := n }
    | .Finished d => { info with done := some d }
    | _ => info
  match status with
  | .Error _ => info
  | _ => { info with status := status }

/-- `PipelineApp::set_status`: take the current state out (a non-`Running`
state yields `RunInfo::default()`), apply the event, and store
`Running(info)` back. -/
def PipeStage.set_status (stage : PipeStage) (status : Status) : PipeStage :=
  let info :=
    match stage with
    | .Running info => info
    | _ => RunInfo.default
  .Running (info.apply status)

/-- `PipelineApp::set_up`. -/
def PipeStage.set_up (_stage : PipeStage) (raw : RawMeta)
    (ephemeride : Option ParMeta) (template : TemplateMeta) : PipeStage :=
  .SetUp raw ephemeride template

/-- `PipelineApp::reset`. -/
def PipeStage.reset (_stage : PipeStage) : PipeStage :=
  PipeStage.default

/-! ## Worker side: backend model and `Request::handle`
(`src/app/syncher/request.rs`) -/

/-- The effect monad of the worker: explicit state passing over the backend
state `DB` with `Result`-style failure, mirroring `&mut Archivist` together
with `?`-propagation. On failure the state reached so far is kept, as the
Rust `&mut` borrow keeps partial mutations. -/
abbrev M (DB : Type) (α : Type) := DB → Except Err α × DB

instance M.instMonad {DB : Type} : Monad (M DB) where
  pure a := fun db => (.ok a, db)
  bind x f := fun db =>
    match x db with
    | (.ok a, db) => f a db
    | (.error e, db) => (.error e, db)

/-- `Err` propagation (Rust's `return Err(..)` / failing `?`). -/
def M.fail {DB α : Type} (e : Err) : M DB α :=
  fun db => (.error e, db)

/-- Lift a pure `Result` (e.g. `ParMeta::new(..)?`) into the worker monad. -/
def M.lift {DB α : Type} (x : Except Err α) : M DB α :=
  fun db => (x, db)

/-- The backend collaborator (`arpa::Archivist` and `arpa::pipeline`),
external to this repository; each operation is an oracle over an abstract
state `DB`. Field names follow the call sites in
`src/app/syncher/request.rs`. -/
structure Backend (DB : Type) where
  commit_transaction : M DB Unit
  rollback_transaction : M DB Unit
  delete_pulsar : Int → M DB Unit
  delete_par : Int → M DB Unit
  delete_toa : Int → M DB Unit
  get_all_pulsars : M DB (List PulsarMeta)
  get_pulsar : Int → M DB PulsarMeta
  insert_pulsar : PulsarMeta → M DB Int
  update_pulsar : PulsarMeta → Int → M DB Unit
  get_all_pars : M DB (List ParMeta)
  get_par_meta : Int → M DB ParMeta
  insert_par : ParMeta → M DB Int
  update_par : ParMeta → Int → M DB Unit
  update_table : Table → Int → String → M DB Unit
  find_pulsar : String → M DB (Option PulsarMeta)
  assert_id : Table → Int → M DB Unit
  get_all_toa_infos : M DB (List TOAInfo)
  get_toa_info : Int → M DB TOAInfo
  par_meta_new : String → Int → Except Err ParMeta
  parse_input_raw : String → M DB RawMeta
  parse_input_ephemeride : RawMeta → String → M DB ParMeta
  parse_input_template : RawMeta → String → M DB TemplateMeta
  cook : RawMeta → Option ParMeta → TemplateMeta → Bool → M DB Unit

/-- Rust's `str::trim`: strip leading and trailing whitespace. (Defined
directly on the character list so that it computes by kernel reduction;
`String.trim` in core is well-founded recursion on byte positions.) -/
def rustTrim (s : String) : String :=
  ⟨((s.data.dropWhile Char.isWhitespace).reverse.dropWhile
      Char.isWhitespace).reverse⟩

/-- Rust's `str::parse::<i32>`: an optional single `+`/`-` sign followed by
one or more ASCII digits, rejecting overflow past the `i32` range. -/
def parseI32 (s : String) : Option Int :=
  let (sign, digits) :=
    match s.data with
    | '+' :: rest => ((1 : Int), rest)
    | '-' :: rest => (-1, rest)
    | rest => (1, rest)
  if digits = [] then none
  else if digits.all Char.isDigit then
    let n : Nat := digits.foldl (fun acc c => acc * 10 + (c.toNat - 48)) 0
    let v : Int := sign * n
    if -2147483648 ≤ v ∧ v ≤ 2147483647 then some v else none
  else none

/-- `Message` from `src/app/syncher/request.rs`. -/
inductive Message where
  | Error (err : Err)
  | Connected
  | CommitSuccess
  | RollbackSuccess
  | ItemAdded (dt : DataType) (id : Int)
  | ItemDeleted (dt : DataType) (id : Int)
  | ItemUpdated (dt : DataType) (id : Int)
  | Pulsars (items : List PulsarMeta)
  | SinglePulsar (item : PulsarMeta)
  | Ephemerides (items : List ParData)
  | SingleEphemeride (item : ParData)
  | TOAs (items : List TOAData)
  | SingleTOA (item : TOAData)
  | PipesSetUp (raw : RawMeta) (ephemeride : Option ParMeta)
      (template : TemplateMeta)
  | PipelineFinished
  | PipelineStatus (s : Status)
deriving DecidableEq, Repr

/-- `Request` from `src/app/syncher/request.rs`. `PathBuf` is modelled as
`String` (`to_string_lossy` is then the identity). The opaque progress
callback of `RunPipeline` is not part of the request value here: its
invocations go through the inbound channel as `PipelineStatus` events and
are not terminal messages (§4.1 of the specification). -/
inductive Request where
  | Commit
  | Rollback
  | Download (dt : DataType) (ft : FetchType)
  | DeleteItem (dt : DataType) (id : Int)
  | AddPulsar (meta : PulsarMeta)
  | UpdatePulsar (id : Int) (meta : PulsarMeta)
  | AddPar (path : String) (pulsar : String) (master : Bool)
  | UpdatePar (id : Int) (path : String) (pulsar : String) (master : Bool)
  | SetupPipes (raw : String) (ephemeride : String) (template : String)
  | RunPipeline (raw : RawMeta) (ephemeride : Option ParMeta)
      (template : TemplateMeta)
deriving DecidableEq, Repr

namespace Worker

variable {DB : Type}

/-- `parse_pulsar` from `src/app/syncher/request.rs`: a reference that
parses as an `i32` is asserted to exist as an id; otherwise an exact-match
alias lookup, failing with `CantFind`. -/
def parse_pulsar (b : Backend DB) (pulsar : String) : M DB Int :=
  match parseI32 pulsar with
  | some id => do
      b.assert_id .PulsarMetas id
      pure id
  | none => do
      let found ← b.find_pulsar ("alias=\x27" ++ pulsar ++ "\x27")
      match found with
      | some meta => pure meta.id
      | none =>
          M.fail (.CantFind ("Pulsar with alias \"" ++ pulsar ++ "\""))

/-- `add_par` from `src/app/syncher/request.rs`. -/
def add_par (b : Backend DB) (path : String) (pulsar : String)
    (master : Bool) : M DB Int := do
  let pid ← parse_pulsar b pulsar
  let meta ← M.lift (b.par_meta_new path pid)
  let id ← b.insert_par meta
  if master then
    b.update_table .PulsarMetas pid ("master_parfile_id=" ++ toString id)
  pure id

/-- `overwrite_par` from `src/app/syncher/request.rs`. -/
def overwrite_par (b : Backend DB) (id : Int) (path : String)
    (pulsar : String) (master : Bool) : M DB Int := do
  let pid ← parse_pulsar b pulsar
  let meta ← M.lift (b.par_meta_new path pid)
  b.update_par meta id
  if master then
    b.update_table .PulsarMetas pid ("master_parfile_id=" ++ toString id)
  pure id

/-- `make_toa_data` from `src/app/syncher/request.rs`. -/
def make_toa_data (b : Backend DB) (meta : TOAInfo) : M DB TOAData := do
  let pulsar ← b.get_pulsar meta.pulsar_id
  pure
    { id := meta.id
      process := meta.process_id
      pulsar := pulsar.alias
      observer := meta.observer_id
      template := meta.template_id
      frequency := meta.frequency
      time := (meta.toa_int : ℚ) + meta.toa_frac
      error := meta.toa_err }

/-- `get_toas` from `src/app/syncher/request.rs` (the `for` loop with `?`
is `mapM`). -/
def get_toas (b : Backend DB) : M DB (List TOAData) := do
  let metas ← b.get_all_toa_infos
  metas.mapM (make_toa_data b)

/-- `get_toa` from `src/app/syncher/request.rs`. -/
def get_toa (b : Backend DB) (id : Int) : M DB TOAData := do
  let meta ← b.get_toa_info id
  make_toa_data b meta

/-- `make_par_data` from `src/app/syncher/request.rs`. -/
def make_par_data (b : Backend DB) (meta : ParMeta) : M DB ParData := do
  let pulsar ← b.get_pulsar meta.pulsar_id
  pure
    { id := meta.id
      pulsar_id := meta.pulsar_id
      pulsar_name := pulsar.alias
      path := meta.file_path }

/-- `get_pars` from `src/app/syncher/request.rs`. -/
def get_pars (b : Backend DB) : M DB (List ParData) := do
  let metas ← b.get_all_pars
  metas.mapM (make_par_data b)

/-- `get_par` from `src/app/syncher/request.rs`. -/
def get_par (b : Backend DB) (id : Int) : M DB ParData := do
  let meta ← b.get_par_meta id
  make_par_data b meta

/-- `set_up_pipes` from `src/app/syncher/request.rs`: parse the trimmed raw
reference, resolve the trimmed ephemeride reference only when non-empty
(empty means "no ephemeride"), then parse the trimmed template reference. -/
def set_up_pipes (b : Backend DB) (raw ephemeride template : String) :
    M DB (RawMeta × Option ParMeta × TemplateMeta) := do
  let r ← b.parse_input_raw (rustTrim raw)
  let parText := rustTrim ephemeride
  let par ←
    if parText.isEmpty then
      pure none
    else do
      let p ← b.parse_input_ephemeride r parText
      pure (some p)
  let t ← b.parse_input_template r (rustTrim template)
  pure (r, par, t)

/-- The `Result<Message, ARPAError>` computation inside `Request::handle`
(the big `match self` in `src/app/syncher/request.rs`). -/
def handleResult (r : Request) (b : Backend DB) : M DB Message :=
  match r with
  | .Commit => do
      b.commit_transaction
      pure .CommitSuccess
  | .Rollback => do
      b.rollback_transaction
      pure .RollbackSuccess
  | .DeleteItem dt id => do
      match dt with
      | .Pulsar => b.delete_pulsar id
      | .Ephemeride => b.delete_par id
      | .Toa => b.delete_toa id
      pure (.ItemDeleted dt id)
  | .Download .Pulsar .All => do
      let ps ← b.get_all_pulsars
      pure (.Pulsars ps)
  | .Download .Pulsar (.Id id) => do
      let p ← b.get_pulsar id
      pure (.SinglePulsar p)
  | .AddPulsar meta => do
      let id ← b.insert_pulsar meta
      pure (.ItemAdded .Pulsar id)
  | .UpdatePulsar id meta => do
      b.update_pulsar meta id
      pure (.ItemUpdated .Pulsar id)
  | .Download .Ephemeride .All => do
      let ps ← get_pars b
      pure (.Ephemerides ps)
  | .Download .Ephemeride (.Id id) => do
      let p ← get_par b id
      pure (.SingleEphemeride p)
  | .AddPar path pulsar master => do
      let id ← add_par b path pulsar master
      pure (.ItemAdded .Ephemeride id)
  | .UpdatePar id path pulsar master => do
      let nid ← overwrite_par b id path pulsar master
      pure (.ItemAdded .Ephemeride nid)
  | .Download .Toa .All => do
      let ts ← get_toas b
      pure (.TOAs ts)
  | .Download .Toa (.Id id) => do
      let t ← get_toa b id
      pure (.SingleTOA t)
  | .SetupPipes raw ephemeride template => do
      let (r, p, t) ← set_up_pipes b raw ephemeride template
      pure (.PipesSetUp r p t)
  | .RunPipeline raw ephemeride template => do
      b.cook raw ephemeride template true
      pure .PipelineFinished

/-- `Request::handle`: the final `response.unwrap_or_else(Message::Error)`,
so handling is total — a backend failure becomes `Message::Error`, never a
panic. Returns the terminal message and the backend state after handling. -/
def handle (r : Request) (b : Backend DB) (db : DB) : Message × DB :=
  match handleResult r b db with
  | (.ok m, db) => (m, db)
  | (.error e, db) => (.Error e, db)

/-- The request-consuming part of the worker loop `core`
(`src/app/syncher.rs`, after the `Connected` handshake): receive requests
in order until the channel closes, handle each sequentially against the
backend, and send each terminal message on the inbound channel. The input
list is the sequence of requests received; the output list is the sequence
of terminal messages sent. -/
def core (b : Backend DB) : DB → List Request → List Message
  | _, [] => []
  | db, r :: rs =>
      let (m, db') := handle r b db
      m :: core b db' rs

/-- The backend state after the worker has consumed a list of requests. -/
def stateAfter (b : Backend DB) (db : DB) : List Request → DB
  | [] => db
  | r :: rs => stateAfter b (handle r b db).2 rs

end Worker

/-! ## Application side: message handling (`src/app.rs`) -/

/-- `StatusMessageSeverity` from `src/app/helpers.rs`. -/
inductive Severity where
  | Info
  | Warning
  | Error
deriving DecidableEq, Repr

/-- `StatusMessage` from `src/app/helpers.rs` (severity and text). -/
structure StatusMessage where
  severity : Severity
  message : String
deriving DecidableEq, Repr

/-- The `Display` text of an `ARPAError`; the impl lives in the external
backend crate, so only its existence matters here — no claim inspects the
rendered text. -/
def Err.display : Err → String
  | .CantFind what => "Cannot find " ++ what
  | .backend info => info

/-- The state of `Application` (`src/app.rs`) acted on by
`handle_message`: the transaction flag, the notice list, the three resource
caches and the pipeline projection. (`tab` and the `Syncher` handle are
not touched by `handle_message` and are omitted.) -/
structure AppState where
  has_live_transaction : Bool
  messages : List StatusMessage
  pulsars : Downloader PulsarMeta
  ephemerides : Downloader ParData
  toas : Downloader TOAData
  pipeline : PipeStage

/-- `Application::info`. -/
def AppState.info (s : AppState) (text : String) : AppState :=
  { s with messages :=
      s.messages ++ [{ severity := .Info, message := text }] }

/-- `Application::warn`. -/
def AppState.warn (s : AppState) (text : String) : AppState :=
  { s with messages :=
      s.messages ++ [{ severity := .Warning, message := text }] }

/-- `Application::error`: push an error notice and interrupt the
pipeline. -/
def AppState.pushError (s : AppState) (text : String) : AppState :=
  { s with
      messages :=
        s.messages ++ [{ severity := .Error, message := "Error: " ++ text }]
      pipeline := s.pipeline.interrupt }

/-- `PulsarsApp::reset_ui` / `EphemerideApp::reset_ui`: stop the cache's
in-flight fetch. (`TOAsApp` has no `reset_ui`.) -/
def AppState.resetPulsarsUi (s : AppState) : AppState :=
  { s with pulsars := s.pulsars.stop_fetching }

/-- `EphemerideApp::reset_ui`. -/
def AppState.resetEphemeridesUi (s : AppState) : AppState :=
  { s with ephemerides := s.ephemerides.stop_fetching }

/-- `Application::reset_part`: deselect the cache of the given kind. -/
def AppState.reset_part (s : AppState) (dt : DataType) : AppState :=
  match dt with
  | .Pulsar => { s with pulsars := s.pulsars.deselect }
  | .Ephemeride => { s with ephemerides := s.ephemerides.deselect }
  | .Toa => { s with toas := s.toas.deselect }

/-- `Application::handle_message` from `src/app.rs`, arm for arm. -/
def AppState.handle_message (s : AppState) (message : Message) : AppState :=
  match message with
  | .Error err =>
      let s := s.pushError err.display
      let s := s.resetPulsarsUi
      let s := s.resetEphemeridesUi
      { s with pipeline := s.pipeline.reset }
  | .Connected => s.info "Connected!"
  | .CommitSuccess =>
      let s := s.info "Commit successful! (list not updated)"
      { s with has_live_transaction := false }
  | .RollbackSuccess =>
      let s := s.info "Rollback successful!"
      { s with has_live_transaction := false }
  | .ItemAdded dt id =>
      let s := s.info
        ("Successfully added " ++ dt.display ++ " #" ++ toString id)
      let s := s.reset_part dt
      { s with has_live_transaction := true }
  | .ItemDeleted dt id =>
      let s := s.info
        ("Successfully deleted " ++ dt.display ++ " #" ++ toString id)
      let s := s.reset_part dt
      { s with has_live_transaction := true }
  | .ItemUpdated dt id =>
      let s := s.info
        ("Successfully updated " ++ dt.display ++ " #" ++ toString id)
      { s with has_live_transaction := true }
  | .Pulsars pulsars =>
      let s := if pulsars = [] then s.warn "No pulsars to download!" else s
      { s with pulsars := s.pulsars.set pulsars }
  | .SinglePulsar pulsar =>
      { s with pulsars := s.pulsars.add pulsar }
  | .Ephemerides pars =>
      let s := if pars = [] then s.warn "No ephemerides to download!" else s
      { s with ephemerides := s.ephemerides.set pars }
  | .SingleEphemeride par =>
      { s with ephemerides := s.ephemerides.add par }
  | .TOAs toas => { s with toas := s.toas.set toas }
  | .SingleTOA toa => { s with toas := s.toas.add toa }
  | .PipesSetUp raw par template =>
      { s with pipeline := s.pipeline.set_up raw par template }
  | .PipelineStatus st =>
      let s :=
        match st with
        | .Error err => s.pushError err
        | _ => s
      { s with pipeline := s.pipeline.set_status st }
  | .PipelineFinished => s.info "Pipeline finished!"

/-! ## Concrete fixtures used by witnesses and counterexamples -/

/-- A concrete pulsar row. -/
def pulsarA : PulsarMeta := { id := 1, «alias» := "J1" }

/-- A second concrete pulsar row with a distinct id. -/
def pulsarB : PulsarMeta := { id := 2, «alias» := "J2" }

/-- A replacement row carrying the same id as `pulsarA`. -/
def pulsarA2 : PulsarMeta := { id := 1, «alias» := "J1-refreshed" }

/-! ## Helper lemmas -/

/-- `findIdx?` only returns indices below the list length. -/
theorem findIdx?_some_lt_length {T : Type} (p : T → Bool) :
    ∀ (l : List T) (i : Nat), l.findIdx? p = some i → i < l.length := by
  intro l
  induction l with
  | nil => intro i h; simp [List.findIdx?] at h
  | cons x xs ih =>
      intro i h
      rw [List.findIdx?_cons] at h
      by_cases hx : p x
      · simp [hx] at h
        simp only [List.length_cons]
        omega
      · simp [hx] at h
        obtain ⟨a, ha, rfl⟩ := h
        have := ih a ha
        simp only [List.length_cons]
        omega

/-! ## Claim C5 -/

/-- C5: `interrupt()` called while `PipeStage` is `Running` or `Invalid`
always results in `Relaxed` with all three fields empty (`raw == ""`,
`ephemeride == 0`, `template == 0`); called while `Relaxed`, `SettingUp`
or `SetUp` it leaves the state unchanged. -/
theorem interrupt_resets_running_and_invalid_only :
    (∀ info, PipeStage.interrupt (.Running info) = .Relaxed "" 0 0) ∧
    PipeStage.interrupt .Invalid = .Relaxed "" 0 0 ∧
    (∀ r e t, PipeStage.interrupt (.Relaxed r e t) = .Relaxed r e t) ∧
    (∀ r e t, PipeStage.interrupt (.SettingUp r e t) = .SettingUp r e t) ∧
    (∀ r p t, PipeStage.interrupt (.SetUp r p t) = .SetUp r p t) :=
  ⟨fun _ => rfl, rfl, fun _ _ _ => rfl, fun _ _ _ => rfl, fun _ _ _ => rfl⟩

/-! ## Claim C7 -/

/-- A cache holding one pulsar and no selection. -/
def cacheOneItem : Downloader PulsarMeta :=
  { (Downloader.new : Downloader PulsarMeta) with data := [pulsarA] }

/-- C7 (code evaluated at the failing input): `select(5)` on a cache of
length 1 does not deselect — the guard's `deselect()` is dead code, the
following `match` re-installs the out-of-range index, and `Some(5)` is
returned as the resulting selection. The claim (and the spec) say an
out-of-range index deselects. -/
theorem select_out_of_range_installs_selection :
    (cacheOneItem.select 5).2 = some 5 ∧
    (cacheOneItem.select 5).1.selected = some 5 ∧
    (cacheOneItem.select 5).1.data.length = 1 := by
  refine ⟨rfl, rfl, rfl⟩

/-! ## Claim C2 -/

/-- The cache state reached by `set([A, B])`, `select(1)`, `set([A])`:
the shrinking `set` keeps the stale selection. -/
def cacheStale : Downloader PulsarMeta :=
  Downloader.set
    ((Downloader.set Downloader.new [pulsarA, pulsarB]).select 1).1
    [pulsarA]

/-- C2 (code evaluated at the failing input): after `set` shrinks the
sequence below the selection index, the selection is not cleared — the
reachable state `cacheStale` has `selected = Some(1)` with only one
element, so the claimed validity invariant fails (and `selected_id` would
index out of bounds). -/
theorem set_retains_stale_selection_violating_invariant :
    cacheStale.selected = some 1 ∧
    cacheStale.data.length = 1 ∧
    ¬ cacheStale.selValid := by
  refine ⟨rfl, rfl, fun h => ?_⟩
  have h1 := h 1 rfl
  simp [cacheStale, Downloader.set] at h1

/-! ## Claim C6 -/

/-- A cache holding `pulsarA`, with `pulsarA` currently selected. -/
def cacheSelectedA : Downloader PulsarMeta :=
  { (Downloader.new : Downloader PulsarMeta) with
      data := [pulsarA], selected := some 0 }

/-- C6 counterexample: `add` of an item whose id is already present at the
currently selected index replaces the element but DESELECTS it (because
`add` reuses the toggle `select`), contradicting "in both cases the added
item becomes selected". -/
theorem add_existing_selected_item_deselects :
    (cacheSelectedA.add pulsarA2).data = [pulsarA2] ∧
    (cacheSelectedA.add pulsarA2).selected = none := ⟨rfl, rfl⟩

/-- C6 as amended: `add(item)` with an id already present leaves the length
unchanged and replaces the element at its original index; with a new id it
appends (length + 1); in both cases the in-flight fetch flag is cleared and
the item's index is passed to the toggle `select`: the item becomes
selected unless its index was already the selection, in which case the
selection is cleared. -/
theorem add_upsert_toggles_selection {T : Type} [Item T]
    (d : Downloader T) (item : T) :
    (d.add item).fetching = false ∧
    (∀ i, d.data.findIdx? (fun x => Item.id x = Item.id item) = some i →
      (d.add item).data = d.data.set i item ∧
      (d.add item).data.length = d.data.length ∧
      (d.add item).selected =
        (if d.selected = some i then none else some i)) ∧
    (d.data.findIdx? (fun x => Item.id x = Item.id item) = none →
      (d.add item).data = d.data ++ [item] ∧
      (d.add item).data.length = d.data.length + 1 ∧
      (d.add item).selected =
        (if d.selected = some d.data.length then none
         else some d.data.length)) := by
  refine ⟨?_, ?_, ?_⟩
  · unfold Downloader.add
    cases hpos : d.data.findIdx? (fun x => Item.id x = Item.id item) <;>
      simp [hpos, Downloader.select, Downloader.deselect]
  · intro i hpos
    have hi : i < d.data.length :=
      findIdx?_some_lt_length _ d.data i hpos
    have hlen : (d.data.set i item).length = d.data.length :=
      List.length_set d.data i item
    unfold Downloader.add
    rw [hpos]
    simp only [Option.getD_some, Downloader.select, hlen]
    have hguard : ¬ d.data.length ≤ i := Nat.not_le.mpr hi
    rw [if_neg hguard]
    cases hsel : d.selected with
    | none => simp [hsel, Downloader.deselect]
    | some j =>
        by_cases hij : j = i
        · subst hij
          simp [hsel]
        · simp [hsel, hij, Ne.symm hij]
  · intro hpos
    unfold Downloader.add
    rw [hpos]
    simp only [Option.getD_none, Downloader.select, List.length_append,
      List.length_cons, List.length_nil, Nat.add_sub_cancel]
    have hguard : ¬ d.data.length + 1 ≤ d.data.length := by omega
    rw [if_neg hguard]
    cases hsel : d.selected with
    | none => simp [hsel, Downloader.deselect]
    | some j =>
        by_cases hij : j = d.data.length
        · subst hij
          simp [hsel]
        · simp [hsel, hij, Ne.symm hij]

/-- C6 witness: the amended theorem applied at concrete inputs, once for
the replace case (`cacheSelectedA` + `pulsarA2`, same id, index selected)
and once for the append case (`cacheSelectedA` + `pulsarB`, new id). -/
theorem add_upsert_toggles_selection_witness :
    (cacheSelectedA.data.findIdx?
        (fun x => Item.id x = Item.id pulsarA2) = some 0 ∧
      (cacheSelectedA.add pulsarA2).data = cacheSelectedA.data.set 0 pulsarA2 ∧
      (cacheSelectedA.add pulsarA2).data.length = cacheSelectedA.data.length ∧
      (cacheSelectedA.add pulsarA2).selected =
        (if cacheSelectedA.selected = some 0 then none else some 0)) ∧
    (cacheSelectedA.data.findIdx?
        (fun x => Item.id x = Item.id pulsarB) = none ∧
      (cacheSelectedA.add pulsarB).data = cacheSelectedA.data ++ [pulsarB] ∧
      (cacheSelectedA.add pulsarB).data.length =
        cacheSelectedA.data.length + 1 ∧
      (cacheSelectedA.add pulsarB).selected =
        (if cacheSelectedA.selected = some cacheSelectedA.data.length
         then none else some cacheSelectedA.data.length)) := by
  have h1 := (add_upsert_toggles_selection cacheSelectedA pulsarA2).2.1
    0 (by decide)
  have h2 := (add_upsert_toggles_selection cacheSelectedA pulsarB).2.2
    (by decide)
  exact ⟨⟨by decide, h1.1, h1.2.1, h1.2.2⟩, ⟨by decide, h2.1, h2.2.1, h2.2.2⟩⟩

/-! ## Claim C8 -/

/-- Whether a progress event is Error-kind. -/
def Status.isError : Status → Bool
  | .Error _ => true
  | _ => false

/-- The error flag of a stage (`false` outside `Running`). -/
def PipeStage.erroredOf : PipeStage → Bool
  | .Running info => info.errored
  | _ => false

/-- One `set_status` step from a `Running` state applies the event to the
held `RunInfo` and stays `Running`. -/
theorem set_status_running_step (info : RunInfo) (status : Status) :
    PipeStage.set_status (.Running info) status =
      .Running (info.apply status) := rfl

/-- The error flag after one event is the old flag joined with whether the
event is Error-kind — it is never cleared by an event. -/
theorem apply_errored_eq (info : RunInfo) (status : Status) :
    (info.apply status).errored = (info.errored || status.isError) := by
  cases status <;> simp [RunInfo.apply, Status.isError]

/-- C8: for every sequence of progress events applied via `set_status`
during one `Running` lifetime, once `RunInfo.errored` is true it remains
true for all subsequent events (which still update counts and the
diagnostics list). -/
theorem runinfo_errored_is_sticky (info : RunInfo) (events : List Status)
    (h : info.errored = true) :
    PipeStage.erroredOf
      (events.foldl PipeStage.set_status (.Running info)) = true ∧
    (∀ (i : RunInfo) (s : Status),
      (RunInfo.apply i s).errored = (i.errored || s.isError)) ∧
    (∀ (i : RunInfo) (n : Nat),
      (RunInfo.apply i (.GotTOAs n)).generated_toas = some n) ∧
    (∀ (i : RunInfo) (dg : String) (p : Bool),
      (RunInfo.apply i (.FinishedDiagnostic dg p)).diagnosed.2 =
        i.diagnosed.2 ++ [(dg, p)]) := by
  refine ⟨?_, apply_errored_eq, ?_, ?_⟩
  · induction events generalizing info with
    | nil => simpa [PipeStage.erroredOf]
    | cons e es ih =>
        rw [List.foldl_cons, set_status_running_step]
        exact ih (info.apply e) (by rw [apply_errored_eq, h, Bool.true_or])
  · intro i n
    simp [RunInfo.apply]
  · intro i dg p
    simp [RunInfo.apply]

/-- A `RunInfo` with the error flag already set. -/
def erroredInfo : RunInfo := { RunInfo.default with errored := true }

/-- C8 witness: the sticky-flag theorem applied to a concrete errored
`RunInfo` and a concrete sequence of subsequent non-error events. -/
theorem runinfo_errored_is_sticky_witness :
    erroredInfo.errored = true ∧
    PipeStage.erroredOf
      ([Status.GotTOAs 2, Status.FinishedDiagnostic "snr" true,
        Status.Finished 7].foldl PipeStage.set_status
        (.Running erroredInfo)) = true :=
  ⟨rfl,
    (runinfo_errored_is_sticky erroredInfo
      [Status.GotTOAs 2, Status.FinishedDiagnostic "snr" true,
        Status.Finished 7] rfl).1⟩

/-! ## Claim C4 -/

/-- Whether a stage is `Running`. -/
def PipeStage.isRunning : PipeStage → Bool
  | .Running _ => true
  | _ => false

/-- `interrupt` never produces a `Running` state from a non-`Running`
one. -/
theorem interrupt_not_running (st : PipeStage)
    (h : st.isRunning = false) : st.interrupt.isRunning = false := by
  cases st <;> simp [PipeStage.interrupt, PipeStage.isRunning,
    PipeStage.default] at h ⊢

/-- `set_status` on a non-`Running` stage starts from a fresh default
`RunInfo`. -/
theorem set_status_not_running (st : PipeStage) (status : Status)
    (h : st.isRunning = false) :
    st.set_status status = .Running (RunInfo.default.apply status) := by
  cases st <;> simp [PipeStage.isRunning] at h ⊢ <;>
    simp [PipeStage.set_status]

/-- A fresh application state (empty caches, default pipeline). -/
def appFresh : AppState :=
  { has_live_transaction := false
    messages := []
    pulsars := Downloader.new
    ephemerides := Downloader.new
    toas := Downloader.new
    pipeline := PipeStage.default }

/-- C4 counterexample: a `PipelineStatus` handled while the pipeline state
is `Relaxed` (not `Running`) does NOT leave the state unchanged — handling
it moves the pipeline to `Running` with a fresh `RunInfo` carrying the
event. The orphaned message is not ignored. -/
theorem orphan_pipeline_status_changes_state :
    appFresh.pipeline = .Relaxed "" 0 0 ∧
    (appFresh.handle_message
        (.PipelineStatus (.GotTOAs 3))).pipeline ≠ appFresh.pipeline := by
  refine ⟨rfl, ?_⟩
  intro h
  simp [appFresh, AppState.handle_message, PipeStage.set_status,
    PipeStage.default, RunInfo.apply, RunInfo.default] at h

/-- C4 as amended: a `Message::PipelineStatus` handled while the pipeline
state is not `Running` is not ignored: `set_status` builds a fresh default
`RunInfo`, applies the event to it, and sets the state to `Running` (an
Error-kind event additionally pushes an error notice and interrupts
first, which also cannot yield `Running`). -/
theorem orphan_pipeline_status_resurrects_running (s : AppState)
    (status : Status) (h : s.pipeline.isRunning = false) :
    (s.handle_message (.PipelineStatus status)).pipeline =
      .Running (RunInfo.default.apply status) := by
  cases status <;>
    simp only [AppState.handle_message, AppState.pushError] <;>
    first
      | exact set_status_not_running _ _ h
      | exact set_status_not_running _ _ (interrupt_not_running _ h)

/-- C4 witness: the amended theorem at the concrete fresh state and the
concrete orphaned event. -/
theorem orphan_pipeline_status_resurrects_running_witness :
    appFresh.pipeline.isRunning = false ∧
    (appFresh.handle_message
        (.PipelineStatus (.GotTOAs 3))).pipeline =
      .Running (RunInfo.default.apply (.GotTOAs 3)) :=
  ⟨rfl, orphan_pipeline_status_resurrects_running appFresh (.GotTOAs 3) rfl⟩

/-! ## Claim C3 -/

/-- An application state with a TOA fetch in flight and the pipeline
mid-resolution (`SettingUp`). -/
def appBusy : AppState :=
  { has_live_transaction := false
    messages := []
    pulsars := { (Downloader.new : Downloader PulsarMeta) with
      fetching := true }
    ephemerides := { (Downloader.new : Downloader ParData) with
      fetching := true }
    toas := { (Downloader.new : Downloader TOAData) with fetching := true }
    pipeline := .SettingUp "raw.dat" 4 7 }

/-- C3 counterexample: handling `Message::Error` clears the fetch flag on
the pulsar and ephemeride caches but NOT on the TOA cache, and resets the
pipeline unconditionally — the in-progress `SettingUp` resolution IS
discarded, contradicting both parts of the claim. -/
theorem error_message_keeps_toa_fetch_and_discards_setting_up :
    (appBusy.handle_message (.Error (.backend "db gone"))).toas.fetching
        = true ∧
    appBusy.pipeline = .SettingUp "raw.dat" 4 7 ∧
    (appBusy.handle_message (.Error (.backend "db gone"))).pipeline
        = .Relaxed "" 0 0 := ⟨rfl, rfl, rfl⟩

/-- C3 as amended: for every `Message::Error` drained from the inbox, the
fetch flag is cleared on the pulsar and ephemeride caches (their data and
selection untouched), the TOA cache is left entirely unchanged, and the
pipeline is reset to the initial `Relaxed` state unconditionally — whatever
stage (argument entry, resolution, `SetUp`, `Running`) it was in. -/
theorem error_message_resets_two_caches_and_whole_pipeline
    (s : AppState) (err : Err) :
    (s.handle_message (.Error err)).pulsars
        = { s.pulsars with fetching := false } ∧
    (s.handle_message (.Error err)).ephemerides
        = { s.ephemerides with fetching := false } ∧
    (s.handle_message (.Error err)).toas = s.toas ∧
    (s.handle_message (.Error err)).pipeline = .Relaxed "" 0 0 := by
  refine ⟨rfl, rfl, rfl, rfl⟩

/-! ## Claim C9 -/

/-- Unfolding `bind` of the worker monad at a state. -/
theorem M.bind_apply {DB α β : Type} (x : M DB α) (f : α → M DB β)
    (db : DB) :
    (x >>= f) db =
      match x db with
      | (Except.ok a, db') => f a db'
      | (Except.error e, db') => (Except.error e, db') := rfl

/-- Unfolding `pure` of the worker monad at a state. -/
theorem M.pure_apply {DB α : Type} (a : α) (db : DB) :
    (pure a : M DB α) db = (Except.ok a, db) := rfl

/-- C9: a `SetupPipes` request whose ephemeride field is empty after
trimming resolves with `None` for the ephemeride (never consulting the
ephemeride parser), provided the raw and template references resolve; the
terminal message is `PipesSetUp(raw, None, template)`, not an error. -/
theorem empty_ephemeride_field_resolves_to_none {DB : Type}
    (b : Backend DB) (db db1 db2 : DB) (raw eph tmpl : String)
    (r : RawMeta) (t : TemplateMeta)
    (heph : rustTrim eph = "")
    (hraw : b.parse_input_raw (rustTrim raw) db = (Except.ok r, db1))
    (htmpl : b.parse_input_template r (rustTrim tmpl) db1
        = (Except.ok t, db2)) :
    Worker.handle (.SetupPipes raw eph tmpl) b db =
      (.PipesSetUp r none t, db2) := by
  unfold Worker.handle Worker.handleResult Worker.set_up_pipes
  simp only [M.bind_apply, M.pure_apply, heph, hraw, htmpl, String.isEmpty,
    if_true, if_false]
  simp [M.bind_apply, M.pure_apply, htmpl]

/-- A concrete resolved raw-file record (id 123). -/
def toyRawMeta : RawMeta := { id := 123, file_path := "/data/raw.ar" }

/-- A concrete resolved template record (id 5). -/
def toyTemplateMeta : TemplateMeta := { id := 5, file_path := "/data/t.std" }

/-- A concrete backend over the trivial state `Unit`: it knows pulsars 1
and 2 and no aliases, resolves the raw reference `"123"` and the template
reference `"5"`, and rejects every ephemeride reference (so a successful
`SetupPipes` through it can only have skipped ephemeride resolution). -/
def toyBackend : Backend Unit :=
  { commit_transaction := pure ()
    rollback_transaction := pure ()
    delete_pulsar := fun _ => pure ()
    delete_par := fun _ => pure ()
    delete_toa := fun _ => pure ()
    get_all_pulsars := pure [pulsarA, pulsarB]
    get_pulsar := fun id =>
      if id = 1 then pure pulsarA
      else if id = 2 then pure pulsarB
      else M.fail (.CantFind "pulsar")
    insert_pulsar := fun _ => pure 3
    update_pulsar := fun _ _ => pure ()
    get_all_pars := pure []
    get_par_meta := fun _ => M.fail (.CantFind "par")
    insert_par := fun _ => pure 11
    update_par := fun _ _ => pure ()
    update_table := fun _ _ _ => pure ()
    find_pulsar := fun _ => pure none
    assert_id := fun _ id =>
      if id = 1 ∨ id = 2 then pure () else M.fail (.backend "no such id")
    get_all_toa_infos := pure []
    get_toa_info := fun _ => M.fail (.CantFind "toa")
    par_meta_new := fun path pid =>
      .ok { id := 0, file_path := path, pulsar_id := pid }
    parse_input_raw := fun s =>
      if s = "123" then pure toyRawMeta else M.fail (.CantFind s)
    parse_input_ephemeride := fun _ s => M.fail (.CantFind s)
    parse_input_template := fun _ s =>
      if s = "5" then pure toyTemplateMeta else M.fail (.CantFind s)
    cook := fun _ _ _ _ => pure () }

/-- C9 witness: the scenario of the claim,
`SetupPipes{raw:"123", ephemeride:"", template:"5"}`, run against the
concrete backend: it yields `PipesSetUp(raw.id==123, None, template.id==5)`
even though that backend fails every ephemeride resolution. -/
theorem empty_ephemeride_field_resolves_to_none_witness :
    rustTrim "" = "" ∧ toyRawMeta.id = 123 ∧ toyTemplateMeta.id = 5 ∧
    Worker.handle (.SetupPipes "123" "" "5") toyBackend () =
      (.PipesSetUp toyRawMeta none toyTemplateMeta, ()) :=
  ⟨rfl, rfl, rfl,
    empty_ephemeride_field_resolves_to_none toyBackend () () () "123" "" "5"
      toyRawMeta toyTemplateMeta rfl rfl rfl⟩

/-! ## Claim C10 -/

/-- C10: for EVERY `AddPar` request (any path, any master flag) whose
pulsar reference does not parse as an integer and matches no alias in the
backend, handling yields the `CantFind` error as its single terminal
message — so no `ItemAdded` — with the backend state exactly as the failed
lookup left it (no insert happens); handling the resulting
`Message::Error` mutates no resource-cache contents; and a reference that
does parse as an integer is instead asserted to exist as an id. -/
theorem add_par_unknown_alias_cant_find {DB : Type} (b : Backend DB)
    (db db' : DB) (path pulsar : String) (master : Bool)
    (hparse : parseI32 pulsar = none)
    (hfind : b.find_pulsar ("alias=\x27" ++ pulsar ++ "\x27") db
        = (Except.ok none, db')) :
    Worker.handle (.AddPar path pulsar master) b db =
      (.Error (.CantFind ("Pulsar with alias \"" ++ pulsar ++ "\"")),
        db') ∧
    (∀ (st : AppState) (err : Err),
      (st.handle_message (.Error err)).pulsars.data = st.pulsars.data ∧
      (st.handle_message (.Error err)).ephemerides.data
        = st.ephemerides.data ∧
      (st.handle_message (.Error err)).toas.data = st.toas.data) ∧
    (∀ (txt : String) (n : Int), parseI32 txt = some n →
      Worker.parse_pulsar b txt =
        (do b.assert_id .PulsarMetas n; pure n)) := by
  refine ⟨?_, fun st err => ⟨rfl, rfl, rfl⟩, ?_⟩
  · simp only [Worker.handle, Worker.handleResult, Worker.add_par,
      Worker.parse_pulsar, hparse, M.bind_apply, hfind, M.fail]
  · intro txt n h
    unfold Worker.parse_pulsar
    rw [h]

/-- C10 witness: the theorem applied at the scenario's concrete request
(`path "/x/y.par"`, pulsar `"J0000+0000"`, master `true`) against the
concrete backend (which has no aliases), plus the integer-reference
conjunct instantiated at `"123"`. -/
theorem add_par_unknown_alias_cant_find_witness :
    parseI32 "J0000+0000" = none ∧
    toyBackend.find_pulsar ("alias=\x27" ++ "J0000+0000" ++ "\x27") ()
      = (Except.ok none, ()) ∧
    Worker.handle (.AddPar "/x/y.par" "J0000+0000" true) toyBackend ()
      = (.Error
          (.CantFind ("Pulsar with alias \"" ++ "J0000+0000" ++ "\"")),
        ()) ∧
    (appBusy.handle_message
        (.Error (.CantFind "x"))).pulsars.data = appBusy.pulsars.data ∧
    parseI32 "123" = some 123 ∧
    Worker.parse_pulsar toyBackend "123" =
      (do toyBackend.assert_id .PulsarMetas 123; pure 123) :=
  ⟨by decide, rfl,
    (add_par_unknown_alias_cant_find toyBackend () () "/x/y.par"
      "J0000+0000" true (by decide) rfl).1,
    ((add_par_unknown_alias_cant_find toyBackend () () "/x/y.par"
      "J0000+0000" true (by decide) rfl).2.1 appBusy (.CantFind "x")).1,
    by decide,
    (add_par_unknown_alias_cant_find toyBackend () () "/x/y.par"
      "J0000+0000" true (by decide) rfl).2.2 "123" 123 (by decide)⟩

/-! ## Claim C1 -/

/-- The worker sends exactly as many terminal messages as it consumes
requests. -/
theorem core_length {DB : Type} (b : Backend DB) :
    ∀ (db : DB) (rs : List Request),
      (Worker.core b db rs).length = rs.length := by
  intro db rs
  induction rs generalizing db with
  | nil => rfl
  | cons r rs ih => simp [Worker.core, ih]

/-- C1: for every request consumed by the worker loop the worker emits
exactly one terminal message (`core` emits one message per request), the
i-th terminal message is exactly the handling result of the i-th request
against the backend state reached by the i-1 requests before it (strict
FIFO), and whenever handling fails the emitted message is `Message::Error`
of that failure — handling is a total function, no failure escapes it. -/
theorem worker_one_ordered_terminal_message_per_request {DB : Type}
    (b : Backend DB) (db : DB) (rs : List Request) :
    (Worker.core b db rs).length = rs.length ∧
    (∀ (i : Nat) (h1 : i < rs.length)
        (h2 : i < (Worker.core b db rs).length),
      (Worker.core b db rs).get ⟨i, h2⟩ =
        (Worker.handle (rs.get ⟨i, h1⟩) b
          (Worker.stateAfter b db (rs.take i))).1) ∧
    (∀ (r : Request) (db0 : DB) (e : Err) (db1 : DB),
      Worker.handleResult r b db0 = (Except.error e, db1) →
      Worker.handle r b db0 = (.Error e, db1)) := by
  refine ⟨core_length b db rs, ?_, ?_⟩
  · induction rs generalizing db with
    | nil => intro i h1; exact absurd h1 (by simp)
    | cons r rs ih =>
        intro i h1 h2
        cases i with
        | zero => rfl
        | succ i =>
            have h1' : i < rs.length := by
              simpa using h1
            have h2' : i < (Worker.core b (Worker.handle r b db).2
                rs).length := by
              rw [core_length]
              exact h1'
            exact ih (Worker.handle r b db).2 i h1' h2'
  · intro r db0 e db1 h
    unfold Worker.handle
    rw [h]

/-- C1 witness: the theorem applied to the concrete backend and the
request sequence `[Commit, Download(Ephemeride, Id 9)]`, whose second
request fails in the backend: two terminal messages come out, in order,
and the failure surfaces as `Message::Error`, not as an exception. -/
theorem worker_one_ordered_terminal_message_per_request_witness :
    (Worker.core toyBackend ()
        [Request.Commit, Request.Download .Ephemeride (.Id 9)]).length =
      ([Request.Commit,
        Request.Download .Ephemeride (.Id 9)] : List Request).length ∧
    (Worker.core toyBackend ()
        [Request.Commit, Request.Download .Ephemeride (.Id 9)]).get
        ⟨1, by decide⟩ =
      (Worker.handle
        (([Request.Commit,
            Request.Download .Ephemeride (.Id 9)] : List Request).get
          ⟨1, by decide⟩)
        toyBackend
        (Worker.stateAfter toyBackend ()
          ([Request.Commit,
            Request.Download .Ephemeride (.Id 9)].take 1))).1 ∧
    Worker.handleResult (Request.Download .Ephemeride (.Id 9)) toyBackend ()
      = (Except.error (.CantFind "par"), ()) ∧
    Worker.handle (Request.Download .Ephemeride (.Id 9)) toyBackend ()
      = (.Error (.CantFind "par"), ()) :=
  ⟨(worker_one_ordered_terminal_message_per_request toyBackend ()
      [Request.Commit, Request.Download .Ephemeride (.Id 9)]).1,
   (worker_one_ordered_terminal_message_per_request toyBackend ()
      [Request.Commit, Request.Download .Ephemeride (.Id 9)]).2.1 1
      (by decide) (by decide),
   rfl,
   (worker_one_ordered_terminal_message_per_request toyBackend ()
      [Request.Commit, Request.Download .Ephemeride (.Id 9)]).2.2
      (Request.Download .Ephemeride (.Id 9)) () (.CantFind "par") () rfl⟩

end ArpaGui
